import Mathlib

/-!
Shallow embedding of the bidirectional SSE request/response server
(`Server`, its handlers `/events`, `/response`, `/trigger`) from the Go
source. Go buffered channels are modelled as bounded FIFO queues with an
explicit `closed` flag; channel *references* held by handlers are modelled
as indices into an arena (a list of all channels ever allocated), so that
overwriting a registry entry does not destroy the channel a running
handler still holds. A send that Go would block on (full buffer) or panic
on (closed channel) is reported as an explicit outcome rather than a new
state.
-/

namespace SSEBidir

/-- Wire shape of a server-to-client request (Go struct `Request`). -/
structure Request where
  id : String
  method : String
  message : String
deriving DecidableEq, Repr

/-- Wire shape of a client-to-server response (Go struct `Response`). -/
structure Response where
  id : String
  result : String
deriving DecidableEq, Repr

/-- A Go buffered channel: FIFO buffer, fixed capacity, closed flag. -/
structure Chan (α : Type) where
  buf : List α
  cap : Nat
  closed : Bool
deriving DecidableEq, Repr

/-- Go `make(chan α, cap)`: empty open buffer. -/
def Chan.new (α : Type) (cap : Nat) : Chan α :=
  { buf := [], cap := cap, closed := false }

/-- Outcome of a Go channel send `ch <- x`. -/
inductive SendOutcome (α : Type) where
  /-- Buffer had space: the value is enqueued and the sender continues. -/
  | sent (c : Chan α)
  /-- Buffer full: the sender blocks until a receiver frees space. -/
  | blocked
  /-- Send on a closed channel: runtime panic. -/
  | panicked
deriving DecidableEq, Repr

/-- Go buffered-channel send semantics. -/
def Chan.send {α : Type} (c : Chan α) (x : α) : SendOutcome α :=
  if c.closed then .panicked
  else if c.buf.length < c.cap then .sent { c with buf := c.buf ++ [x] }
  else .blocked

/-- Outcome of a Go channel receive `x, ok := <-ch`. -/
inductive RecvOutcome (α : Type) where
  /-- A buffered value was dequeued (FIFO head). -/
  | received (x : α) (c : Chan α)
  /-- Channel closed and drained: receive returns the zero value, ok = false. -/
  | closedEmpty
  /-- Buffer empty but channel open: the receiver blocks. -/
  | blocked
deriving DecidableEq, Repr

/-- Go buffered-channel receive semantics. -/
def Chan.recv {α : Type} (c : Chan α) : RecvOutcome α :=
  match c.buf with
  | x :: rest => .received x { c with buf := rest }
  | [] => if c.closed then .closedEmpty else .blocked

/-- Channel arena access: dereference index `i`. Out-of-range yields a
dummy zero-capacity channel (never reachable through registry indices). -/
def chanAt {α : Type} : List (Chan α) → Nat → Chan α
  | [], _ => { buf := [], cap := 0, closed := false }
  | c :: _, 0 => c
  | _ :: rest, n + 1 => chanAt rest n

/-- Replace the channel at index `i` in the arena. -/
def setAt {α : Type} : List (Chan α) → Nat → Chan α → List (Chan α)
  | [], _, _ => []
  | _ :: rest, 0, c => c :: rest
  | d :: rest, n + 1, c => d :: setAt rest n c

/-- Close the channel at index `i` in the arena (Go `close(ch)`). -/
def closeAt {α : Type} : List (Chan α) → Nat → List (Chan α)
  | [], _ => []
  | c :: rest, 0 => { c with closed := true } :: rest
  | c :: rest, n + 1 => c :: closeAt rest n

/-- Association-list lookup, modelling Go map indexing `m[k]` with a
presence test (`v, ok := m[k]`). -/
def alookup {β : Type} : List (String × β) → String → Option β
  | [], _ => none
  | (k, v) :: rest, key => if k = key then some v else alookup rest key

/-- Association-list insert, modelling Go map assignment `m[k] = v`
(overwrites an existing binding). -/
def aInsert {β : Type} : List (String × β) → String → β → List (String × β)
  | [], key, v => [(key, v)]
  | (k, w) :: rest, key, v =>
    if k = key then (key, v) :: rest else (k, w) :: aInsert rest key v

/-- Association-list delete, modelling Go `delete(m, k)`. -/
def aErase {β : Type} : List (String × β) → String → List (String × β)
  | [], _ => []
  | (k, w) :: rest, key =>
    if k = key then aErase rest key else (k, w) :: aErase rest key

/-- Go struct `Server`: the two registry maps, with the channels they
reference held in arenas (`reqChans`, `respChans`) so that handlers can
keep using a channel after its registry entry is overwritten or deleted. -/
structure Server where
  reqChans : List (Chan Request)
  respChans : List (Chan Response)
  clients : List (String × Nat)
  responses : List (String × Nat)
deriving DecidableEq, Repr

/-- Go `NewServer()`: empty maps, nothing allocated. -/
def Server.empty : Server :=
  { reqChans := [], respChans := [], clients := [], responses := [] }

/-- Go `Server.addClient`: allocates a fresh request channel and a fresh
response channel, both of capacity 10, and assigns them into the two maps
under `clientID` (overwriting any previous binding; the previous channels
are neither closed nor otherwise touched). Returns the new state and the
index of the new request channel, the reference the `/events` handler
holds. The new response channel gets the same index in its own arena. -/
def Server.addClient (s : Server) (clientID : String) : Server × Nat :=
  let reqIdx := s.reqChans.length
  let respIdx := s.respChans.length
  ({ reqChans := s.reqChans ++ [Chan.new Request 10],
     respChans := s.respChans ++ [Chan.new Response 10],
     clients := aInsert s.clients clientID reqIdx,
     responses := aInsert s.responses clientID respIdx }, reqIdx)

/-- Go `Server.removeClient`: for each of the two maps, if an entry for
`clientID` exists, close the referenced channel and delete the entry;
otherwise do nothing for that map. -/
def Server.removeClient (s : Server) (clientID : String) : Server :=
  let s1 :=
    match alookup s.clients clientID with
    | some i =>
      { s with reqChans := closeAt s.reqChans i, clients := aErase s.clients clientID }
    | none => s
  match alookup s1.responses clientID with
  | some i =>
    { s1 with respChans := closeAt s1.respChans i, responses := aErase s1.responses clientID }
  | none => s1

/-- Result of Go `Server.sendRequest` (which runs under `mutex.RLock`). -/
inductive SendReqResult where
  /-- Request enqueued; the handler then reads `s.responses[clientID]`
  and returns that channel (`none` models a nil channel from a missing
  `responses` entry). -/
  | ok (s : Server) (respIdx : Option Nat)
  /-- `clientChan <- req` blocked: the client's request buffer is full,
  so the sender stalls (still holding the read lock). -/
  | blocked
  /-- `clientChan <- req` panicked: the referenced channel was closed. -/
  | panicked
  /-- No `clients` entry for `clientID`: the function returns nil. -/
  | nilChan
deriving DecidableEq, Repr

/-- Go `Server.sendRequest`: look up the client's request channel, send
the request on it, and return the client's response channel; nil when the
client is unknown. -/
def Server.sendRequest (s : Server) (clientID : String) (req : Request) :
    SendReqResult :=
  match alookup s.clients clientID with
  | some i =>
    match (chanAt s.reqChans i).send req with
    | .sent c => .ok { s with reqChans := setAt s.reqChans i c } (alookup s.responses clientID)
    | .blocked => .blocked
    | .panicked => .panicked
  | none => .nilChan

/-- Result of the `/response` handler after JSON decoding succeeded. -/
inductive SubmitResult where
  /-- Handler completed and wrote the given HTTP status. -/
  | done (s : Server) (status : Nat)
  /-- `respChan <- response` blocked: the response buffer is full. -/
  | blocked
  /-- `respChan <- response` panicked: the channel was closed. -/
  | panicked
deriving DecidableEq, Repr

/-- Go `/response` handler body (after decoding): look up the response
channel for the `Client-ID` header; if present, forward the response onto
it; then write 200 OK unconditionally — also when no entry exists, in
which case the response is silently dropped. -/
def handleResponse (s : Server) (clientID : String) (resp : Response) :
    SubmitResult :=
  match alookup s.responses clientID with
  | some i =>
    match (chanAt s.respChans i).send resp with
    | .sent c => .done { s with respChans := setAt s.respChans i c } 200
    | .blocked => .blocked
    | .panicked => .panicked
  | none => .done s 200

/-- Go request-ID generation in `/trigger`:
`fmt.Sprintf("req_%d", time.Now().Unix())` — second-resolution wall clock. -/
def genRequestID (unixNow : Nat) : String :=
  "req_" ++ toString unixNow

/-- The `Request` value built by `/trigger` at Unix time `unixNow`. -/
def triggerRequest (unixNow : Nat) (message : String) : Request :=
  { id := genRequestID unixNow, method := "analyze", message := message }

/-- Result of the first phase of the `/trigger` handler (parameter
validation, request construction, `sendRequest`, nil check). -/
inductive TriggerStart where
  /-- Missing `client_id` or `message` parameter: 400 Bad Request. -/
  | badRequest
  /-- `sendRequest` returned nil (unknown client): 404 "Client not found",
  state unchanged, nothing enqueued and nothing left pending. -/
  | notFound
  /-- `sendRequest` enqueued the request but `s.responses[clientID]` was
  missing, so the returned channel is nil: 404 despite the enqueue. -/
  | nilAfterSend (s : Server)
  /-- Request enqueued; the handler now waits on response channel `i`. -/
  | started (s : Server) (respIdx : Nat)
  /-- The enqueue blocked on a full request buffer. -/
  | blocked
  /-- The enqueue panicked on a closed channel. -/
  | panicked
deriving DecidableEq, Repr

/-- Go `/trigger` handler, phase one: validate parameters, build the
request with a timestamp-derived ID, call `sendRequest`, and 404 when the
returned response channel is nil. -/
def triggerStart (s : Server) (clientID message : String) (unixNow : Nat) :
    TriggerStart :=
  if clientID = "" ∨ message = "" then .badRequest
  else
    match s.sendRequest clientID (triggerRequest unixNow message) with
    | .ok s' (some i) => .started s' i
    | .ok s' none => .nilAfterSend s'
    | .blocked => .blocked
    | .panicked => .panicked
    | .nilChan => .notFound

/-- Result of the second phase of `/trigger`: the
`select` between `<-respChan` and `<-time.After(30 * time.Second)`. -/
inductive AwaitResult where
  /-- A response was dequeued (FIFO head, whatever its `id` field):
  200 with the response as JSON body. -/
  | gotResponse (resp : Response) (s : Server)
  /-- The channel was closed and empty: the receive yields the zero
  `Response` immediately (the handler does not check `ok`). -/
  | zeroValue (s : Server)
  /-- Nothing arrived within 30 seconds: 408 Request Timeout. -/
  | timeout
deriving DecidableEq, Repr

/-- Go `/trigger` handler, phase two: wait on the response channel at
arena index `respIdx` with a 30-second timeout. `timeout` is the outcome
when the buffer stays empty (and open) for the whole wait. -/
def awaitResponse (s : Server) (respIdx : Nat) : AwaitResult :=
  match (chanAt s.respChans respIdx).recv with
  | .received x c => .gotResponse x { s with respChans := setAt s.respChans respIdx c }
  | .closedEmpty => .zeroValue s
  | .blocked => .timeout

/-- One iteration of the `/events` drain loop: receive the next request
from the session's request channel (the loop then serializes it as one
SSE `data:` frame and flushes). `none` when the loop would block or exit. -/
def drainStep (c : Chan Request) : Option (Request × Chan Request) :=
  match c.recv with
  | .received x c' => some (x, c')
  | _ => none

/-- The SSE framing the drain loop writes for one serialized request:
`fmt.Fprintf(w, "data: %s\n\n", reqJSON)`. -/
def sseFrame (payload : String) : String :=
  "data: " ++ payload ++ "\n\n"

/-- The sequence of requests the drain loop observes when it runs `fuel`
iterations (it stops early if the buffer is exhausted). -/
def drainList : Nat → Chan Request → List Request
  | 0, _ => []
  | fuel + 1, c =>
    match drainStep c with
    | some (x, c') => x :: drainList fuel c'
    | none => []

/-- Convenience: the state after a successful `sendRequest`, unchanged
`s` otherwise. Used to build concrete reachable states. -/
def sendRequestState (s : Server) (clientID : String) (req : Request) : Server :=
  match s.sendRequest clientID req with
  | .ok s' _ => s'
  | _ => s

/-- Convenience: the state after a completed `/response` handler,
unchanged `s` otherwise. -/
def submitState (s : Server) (clientID : String) (resp : Response) : Server :=
  match handleResponse s clientID resp with
  | .done s' _ => s'
  | _ => s

/-- Convenience: status written by a completed `/response` handler. -/
def submitStatus (s : Server) (clientID : String) (resp : Response) : Option Nat :=
  match handleResponse s clientID resp with
  | .done _ st => some st
  | _ => none

/-- Convenience: the response a completed `/trigger` wait returns. -/
def awaitGot (s : Server) (respIdx : Nat) : Option Response :=
  match awaitResponse s respIdx with
  | .gotResponse r _ => some r
  | _ => none

/-- Concrete reachable state: a fresh server with client "c1" registered
(its `/events` handler connected once). -/
def regC1 : Server := (Server.empty.addClient "c1").1

/-- `regC1` after one `/trigger` dispatch at Unix time 100 (request
`req_100` enqueued, its handler now waiting on response channel 0). -/
def pendingC1 : Server := sendRequestState regC1 "c1" (triggerRequest 100 "hello")

/-- `pendingC1` after the 30 s wait timed out and a late response carrying
the dispatched request's identifier arrived via `/response`. -/
def lateC1 : Server := submitState pendingC1 "c1" { id := genRequestID 100, result := "late" }

/-- `lateC1` after a second `/trigger` dispatch at Unix time 200. -/
def secondC1 : Server := sendRequestState lateC1 "c1" (triggerRequest 200 "again")

/-- A reachable state where client "c1"'s request buffer holds 10
undrained requests (its drain loop never ran): ten dispatches at Unix
times 0..9. -/
def fullC1 : Server :=
  (List.range 10).foldl (fun s n => sendRequestState s "c1" (triggerRequest n "m")) regC1

/-- `pendingC1` after client "c1" reconnects: a second `addClient` for the
same identifier while a dispatch is still pending on the old channels. -/
def reregC1 : Server := (pendingC1.addClient "c1").1

theorem setAt_length {α : Type} (l : List (Chan α)) (i : Nat) (c : Chan α) :
    (setAt l i c).length = l.length := by
  induction l generalizing i with
  | nil => rfl
  | cons d rest ih =>
    cases i with
    | zero => rfl
    | succ n => simp [setAt, ih]

theorem chanAt_setAt_self {α : Type} (l : List (Chan α)) (i : Nat) (c : Chan α)
    (h : i < l.length) : chanAt (setAt l i c) i = c := by
  induction l generalizing i with
  | nil => simp at h
  | cons d rest ih =>
    cases i with
    | zero => rfl
    | succ n =>
      simp only [setAt, chanAt]
      exact ih n (by simpa using h)

theorem chanAt_append_lt {α : Type} (l m : List (Chan α)) (i : Nat)
    (h : i < l.length) : chanAt (l ++ m) i = chanAt l i := by
  induction l generalizing i with
  | nil => simp at h
  | cons d rest ih =>
    cases i with
    | zero => rfl
    | succ n =>
      simp only [List.cons_append, chanAt]
      exact ih n (by simpa using h)

theorem chanAt_append_length {α : Type} (l : List (Chan α)) (c : Chan α) :
    chanAt (l ++ [c]) l.length = c := by
  induction l with
  | nil => rfl
  | cons d rest ih => simpa [chanAt] using ih

theorem cap_pos_lt_length {α : Type} (l : List (Chan α)) (i : Nat)
    (h : 0 < (chanAt l i).cap) : i < l.length := by
  induction l generalizing i with
  | nil => simp [chanAt] at h
  | cons d rest ih =>
    cases i with
    | zero => simp
    | succ n =>
      have := ih n (by simpa [chanAt] using h)
      simpa using this

theorem alookup_aInsert_self {β : Type} (l : List (String × β)) (k : String) (v : β) :
    alookup (aInsert l k v) k = some v := by
  induction l with
  | nil => simp [aInsert, alookup]
  | cons p rest ih =>
    obtain ⟨a, b⟩ := p
    by_cases hak : a = k
    · simp [aInsert, hak, alookup]
    · simp [aInsert, hak, alookup, ih]

theorem alookup_aErase_self {β : Type} (l : List (String × β)) (k : String) :
    alookup (aErase l k) k = none := by
  induction l with
  | nil => rfl
  | cons p rest ih =>
    obtain ⟨a, b⟩ := p
    by_cases hak : a = k
    · simp [aErase, hak, ih]
    · simp [aErase, hak, alookup, ih]

theorem chan_send_room {α : Type} (c : Chan α) (x : α)
    (ho : c.closed = false) (hr : c.buf.length < c.cap) :
    c.send x = .sent { c with buf := c.buf ++ [x] } := by
  simp [Chan.send, ho, hr]

theorem chan_recv_cons {α : Type} (c : Chan α) (x : α) (rest : List α)
    (hbuf : c.buf = x :: rest) :
    c.recv = .received x { c with buf := rest } := by
  obtain ⟨b, cp, cl⟩ := c
  simp only at hbuf
  subst hbuf
  rfl

theorem chan_recv_empty_open {α : Type} (c : Chan α)
    (hbuf : c.buf = []) (ho : c.closed = false) :
    c.recv = .blocked := by
  obtain ⟨b, cp, cl⟩ := c
  simp only at hbuf ho
  subst hbuf; subst ho
  rfl

theorem sendRequest_ok (s : Server) (cid : String) (i : Nat) (r : Request)
    (hl : alookup s.clients cid = some i)
    (ho : (chanAt s.reqChans i).closed = false)
    (hr : (chanAt s.reqChans i).buf.length < (chanAt s.reqChans i).cap) :
    s.sendRequest cid r = .ok
      { s with reqChans := (setAt s.reqChans i
          ({ chanAt s.reqChans i with buf := (chanAt s.reqChans i).buf ++ [r] })) }
      (alookup s.responses cid) := by
  simp [Server.sendRequest, hl, chan_send_room _ _ ho hr]

theorem handleResponse_sent (s : Server) (cid : String) (i : Nat) (resp : Response)
    (hl : alookup s.responses cid = some i)
    (ho : (chanAt s.respChans i).closed = false)
    (hr : (chanAt s.respChans i).buf.length < (chanAt s.respChans i).cap) :
    handleResponse s cid resp = .done
      { s with respChans := (setAt s.respChans i
          ({ chanAt s.respChans i with buf := (chanAt s.respChans i).buf ++ [resp] })) }
      200 := by
  simp [handleResponse, hl, chan_send_room _ _ ho hr]

theorem awaitResponse_cons (s : Server) (i : Nat) (x : Response) (rest : List Response)
    (hbuf : (chanAt s.respChans i).buf = x :: rest) :
    awaitResponse s i = .gotResponse x
      { s with respChans := (setAt s.respChans i
          ({ chanAt s.respChans i with buf := rest })) } := by
  simp [awaitResponse, chan_recv_cons _ _ _ hbuf]

theorem awaitResponse_empty_open (s : Server) (i : Nat)
    (hbuf : (chanAt s.respChans i).buf = [])
    (ho : (chanAt s.respChans i).closed = false) :
    awaitResponse s i = .timeout := by
  simp [awaitResponse, chan_recv_empty_open _ hbuf ho]

theorem drainList_mk (b : List Request) (cp : Nat) (cl : Bool) :
    drainList b.length { buf := b, cap := cp, closed := cl } = b := by
  induction b with
  | nil => rfl
  | cons x rest ih =>
    simp only [List.length_cons, drainList, drainStep, Chan.recv]
    exact congrArg (x :: ·) ih

theorem drainList_eq_buf (c : Chan Request) :
    drainList c.buf.length c = c.buf := by
  obtain ⟨b, cp, cl⟩ := c
  exact drainList_mk b cp cl

/-- C1: the claim fails on the code: there is no per-request correlation.
Concretely, client "c1" dispatches request `req_100`; a response whose
identifier is `"zzz"` (matching nothing) is submitted; the waiting
dispatch nevertheless dequeues and returns that response. So a response
is NOT consumed "only by the pending entry whose identifier matches". -/
theorem C1_counterexample :
    triggerStart regC1 "c1" "hello" 100 = .started pendingC1 0 ∧
    (chanAt pendingC1.reqChans 0).buf =
      [{ id := "req_100", method := "analyze", message := "hello" }] ∧
    submitStatus pendingC1 "c1" { id := "zzz", result := "r" } = some 200 ∧
    awaitGot (submitState pendingC1 "c1" { id := "zzz", result := "r" }) 0 =
      some { id := "zzz", result := "r" } ∧
    "zzz" ≠ genRequestID 100 := by
  refine ⟨rfl, rfl, rfl, rfl, ?_⟩
  decide

/-- C1 (amended): a dispatch pending on an empty response queue returns
the first response subsequently submitted for that client — whatever its
identifier, so in particular the matching one — and returns it exactly
once: the response is dequeued, and a further wait on the same channel
finds nothing and times out. -/
theorem C1_theorem (s : Server) (cid : String) (i : Nat) (resp : Response)
    (hl : alookup s.responses cid = some i)
    (hbuf : (chanAt s.respChans i).buf = [])
    (ho : (chanAt s.respChans i).closed = false)
    (hcap : 0 < (chanAt s.respChans i).cap) :
    ∃ s', handleResponse s cid resp = .done s' 200 ∧
      awaitResponse s' i = .gotResponse resp
        ({ s' with respChans := (setAt s'.respChans i
            ({ chanAt s'.respChans i with buf := [] })) }) ∧
      awaitResponse
        ({ s' with respChans := (setAt s'.respChans i
            ({ chanAt s'.respChans i with buf := [] })) }) i = .timeout := by
  have hi : i < s.respChans.length := cap_pos_lt_length _ _ hcap
  have h1 := handleResponse_sent s cid i resp hl ho (by rw [hbuf]; simpa using hcap)
  rw [hbuf] at h1
  simp only [List.nil_append] at h1
  refine ⟨_, h1, ?_, ?_⟩
  · exact awaitResponse_cons _ i resp []
      (by simp only [chanAt_setAt_self _ _ _ hi])
  · apply awaitResponse_empty_open
    · have hi' : i < (setAt s.respChans i ({ chanAt s.respChans i with buf := [resp] })).length := by
        rw [setAt_length]; exact hi
      simp only [chanAt_setAt_self _ _ _ hi']
    · have hi' : i < (setAt s.respChans i ({ chanAt s.respChans i with buf := [resp] })).length := by
        rw [setAt_length]; exact hi
      simp only [chanAt_setAt_self _ _ _ hi', chanAt_setAt_self _ _ _ hi]
      exact ho

/-- C1 witness: the amended behaviour at the concrete pending state — the
matching response `req_100` is delivered to the waiting dispatch exactly
once. -/
theorem C1_witness :
    ∃ s', handleResponse pendingC1 "c1" { id := "req_100", result := "done" } = .done s' 200 ∧
      awaitResponse s' 0 = .gotResponse { id := "req_100", result := "done" }
        ({ s' with respChans := (setAt s'.respChans 0
            ({ chanAt s'.respChans 0 with buf := [] })) }) ∧
      awaitResponse
        ({ s' with respChans := (setAt s'.respChans 0
            ({ chanAt s'.respChans 0 with buf := [] })) }) 0 = .timeout :=
  C1_theorem pendingC1 "c1" 0 { id := "req_100", result := "done" } rfl rfl rfl (by decide)

/-- C2: the code violates the claim (and the spec flags this source
behaviour as a defect): with client "c1" registered and its request
buffer full (10 undrained requests), an 11th dispatch does not fail with
a backpressure error — the channel send blocks the dispatcher
indefinitely while it holds the registry read lock. -/
theorem C2_blocking :
    (chanAt fullC1.reqChans 0).buf.length = 10 ∧
    (chanAt fullC1.reqChans 0).cap = 10 ∧
    fullC1.sendRequest "c1" (triggerRequest 100 "overflow") = .blocked := by
  refine ⟨rfl, rfl, rfl⟩

/-- C3: the claim fails on the code: after a dispatch for `req_100` times
out, nothing is removed — there is no per-request pending entry. A late
submit carrying that identifier is acknowledged with 200, stays in the
client's response queue, and is returned as the result of the next
dispatch; it is not dropped. -/
theorem C3_counterexample :
    awaitResponse pendingC1 0 = .timeout ∧
    submitStatus pendingC1 "c1" { id := genRequestID 100, result := "late" } = some 200 ∧
    (chanAt lateC1.respChans 0).buf = [{ id := "req_100", result := "late" }] ∧
    awaitGot secondC1 0 = some { id := "req_100", result := "late" } := by
  refine ⟨rfl, rfl, rfl, rfl⟩

/-- C3 (amended): a dispatch with no submit during its 30 s wait fails
with Timeout (408); but no pending entry is removed (none exists): a late
submit is acknowledged with 200, is enqueued on the client's shared
response queue, and is delivered to a subsequent dispatch for that client
rather than being dropped. -/
theorem C3_theorem (s : Server) (cid : String) (i : Nat) (resp : Response)
    (hl : alookup s.responses cid = some i)
    (hbuf : (chanAt s.respChans i).buf = [])
    (ho : (chanAt s.respChans i).closed = false)
    (hcap : 0 < (chanAt s.respChans i).cap) :
    awaitResponse s i = .timeout ∧
    ∃ s', handleResponse s cid resp = .done s' 200 ∧
      (chanAt s'.respChans i).buf = [resp] ∧
      awaitGot s' i = some resp := by
  have hi : i < s.respChans.length := cap_pos_lt_length _ _ hcap
  refine ⟨awaitResponse_empty_open s i hbuf ho, ?_⟩
  have h1 := handleResponse_sent s cid i resp hl ho (by rw [hbuf]; simpa using hcap)
  rw [hbuf] at h1
  simp only [List.nil_append] at h1
  refine ⟨_, h1, ?_, ?_⟩
  · simp only [chanAt_setAt_self _ _ _ hi]
  · unfold awaitGot
    rw [awaitResponse_cons _ i resp [] (by simp only [chanAt_setAt_self _ _ _ hi])]

/-- C3 witness: the amended behaviour at the concrete pending state. -/
theorem C3_witness :
    awaitResponse pendingC1 0 = .timeout ∧
    ∃ s', handleResponse pendingC1 "c1" { id := "req_100", result := "late" } = .done s' 200 ∧
      (chanAt s'.respChans 0).buf = [{ id := "req_100", result := "late" }] ∧
      awaitGot s' 0 = some { id := "req_100", result := "late" } :=
  C3_theorem pendingC1 "c1" 0 { id := "req_100", result := "late" } rfl rfl rfl (by decide)

/-- C4: the claim fails on the code: re-registering "c1" (while a request
is buffered and a dispatch is pending) installs fresh channels in the
registry but does NOT terminate the previous session: the old push
channel stays open with its buffered request, the old response channel
stays open, and the pending dispatch waiting on it is not failed with
"client replaced" — it still simply times out. -/
theorem C4_counterexample :
    alookup pendingC1.clients "c1" = some 0 ∧
    alookup reregC1.clients "c1" = some 1 ∧
    (chanAt reregC1.reqChans 0).closed = false ∧
    (chanAt reregC1.reqChans 0).buf = [triggerRequest 100 "hello"] ∧
    (chanAt reregC1.respChans 0).closed = false ∧
    awaitResponse reregC1 0 = .timeout := by
  refine ⟨rfl, rfl, rfl, rfl, rfl, rfl⟩

/-- C4 (amended): re-registering an already-registered client identifier
merely overwrites the two registry bindings with references to fresh
capacity-10 channels; the previous session's channels are left untouched
(open, contents intact) and orphaned, so its drain loop and any pending
dispatch on its response channel are not cancelled. Only the registry
binding is unique per identifier, not the live channels. -/
theorem C4_theorem (s : Server) (cid : String) (i j : Nat)
    (_hl : alookup s.clients cid = some i)
    (_hlr : alookup s.responses cid = some j)
    (hi : i < s.reqChans.length)
    (hj : j < s.respChans.length) :
    alookup ((s.addClient cid).1).clients cid = some s.reqChans.length ∧
    alookup ((s.addClient cid).1).responses cid = some s.respChans.length ∧
    chanAt ((s.addClient cid).1).reqChans i = chanAt s.reqChans i ∧
    chanAt ((s.addClient cid).1).respChans j = chanAt s.respChans j ∧
    chanAt ((s.addClient cid).1).reqChans s.reqChans.length = Chan.new Request 10 ∧
    chanAt ((s.addClient cid).1).respChans s.respChans.length = Chan.new Response 10 := by
  simp only [Server.addClient]
  exact ⟨alookup_aInsert_self _ _ _, alookup_aInsert_self _ _ _,
    chanAt_append_lt _ _ _ hi, chanAt_append_lt _ _ _ hj,
    chanAt_append_length _ _, chanAt_append_length _ _⟩

/-- C4 witness: the amended behaviour at the concrete pending state. -/
theorem C4_witness :
    alookup ((pendingC1.addClient "c1").1).clients "c1" = some pendingC1.reqChans.length ∧
    alookup ((pendingC1.addClient "c1").1).responses "c1" = some pendingC1.respChans.length ∧
    chanAt ((pendingC1.addClient "c1").1).reqChans 0 = chanAt pendingC1.reqChans 0 ∧
    chanAt ((pendingC1.addClient "c1").1).respChans 0 = chanAt pendingC1.respChans 0 ∧
    chanAt ((pendingC1.addClient "c1").1).reqChans pendingC1.reqChans.length =
      Chan.new Request 10 ∧
    chanAt ((pendingC1.addClient "c1").1).respChans pendingC1.respChans.length =
      Chan.new Response 10 :=
  C4_theorem pendingC1 "c1" 0 0 rfl rfl (by decide) (by decide)

/-- C5: the claim fails on the code: submitting a response for the never-
registered client "c2" does not fail with an "unknown client" error — the
handler finds no response channel, silently drops the response (state
unchanged) and still acknowledges with 200 OK. -/
theorem C5_counterexample :
    alookup Server.empty.responses "c2" = none ∧
    handleResponse Server.empty "c2" { id := "x", result := "y" } =
      .done Server.empty 200 :=
  ⟨rfl, rfl⟩

/-- C5 (amended): a submit for a clientID with no registered session does
not fail: it is acknowledged with 200 OK and the response is silently
dropped, the state unchanged. When a session does exist (and its response
buffer has room), the acknowledgement is likewise 200, independent of
whether any dispatch is pending: the handler never inspects pending
state, it only appends to the client's response queue. -/
theorem C5_theorem (s : Server) (cid : String) (resp : Response) :
    (alookup s.responses cid = none → handleResponse s cid resp = .done s 200) ∧
    (∀ i, alookup s.responses cid = some i →
      (chanAt s.respChans i).closed = false →
      (chanAt s.respChans i).buf.length < (chanAt s.respChans i).cap →
      handleResponse s cid resp = .done
        ({ s with respChans := (setAt s.respChans i
            ({ chanAt s.respChans i with buf := (chanAt s.respChans i).buf ++ [resp] })) })
        200) := by
  constructor
  · intro habs
    simp [handleResponse, habs]
  · intro i hl ho hr
    exact handleResponse_sent s cid i resp hl ho hr

/-- C5 witness: both branches at concrete inputs — unknown client "c2"
acknowledged with 200 and dropped; registered client "c1" acknowledged
with 200 and the response appended. -/
theorem C5_witness :
    handleResponse Server.empty "c2" { id := "a", result := "b" } =
      .done Server.empty 200 ∧
    handleResponse regC1 "c1" { id := "a", result := "b" } = .done
      ({ regC1 with respChans := (setAt regC1.respChans 0
          ({ chanAt regC1.respChans 0 with
              buf := (chanAt regC1.respChans 0).buf ++ [{ id := "a", result := "b" }] })) })
      200 :=
  ⟨(C5_theorem Server.empty "c2" { id := "a", result := "b" }).1 rfl,
   (C5_theorem regC1 "c1" { id := "a", result := "b" }).2 0 rfl rfl (by decide)⟩

/-- C6: confirmed. Dispatch to a clientID with no `clients` entry makes
`sendRequest` return nil without enqueuing anything, and the `/trigger`
handler answers 404 "Client not found" at once — `TriggerStart.notFound`
carries no state: nothing was mutated, no wait was entered and no pending
correlation exists. -/
theorem C6_theorem (s : Server) (cid message : String) (now : Nat)
    (hcid : cid ≠ "") (hmsg : message ≠ "")
    (habs : alookup s.clients cid = none) :
    s.sendRequest cid (triggerRequest now message) = .nilChan ∧
    triggerStart s cid message now = .notFound := by
  have h1 : s.sendRequest cid (triggerRequest now message) = .nilChan := by
    simp [Server.sendRequest, habs]
  refine ⟨h1, ?_⟩
  simp [triggerStart, hcid, hmsg, h1]

/-- C6 witness: dispatch to the unregistered client "ghost". -/
theorem C6_witness :
    Server.empty.sendRequest "ghost" (triggerRequest 5 "hello") = .nilChan ∧
    triggerStart Server.empty "ghost" "hello" 5 = .notFound :=
  C6_theorem Server.empty "ghost" "hello" 5 (by decide) (by decide) rfl

/-- C7: confirmed. Dispatches to the same registered client (with room in
its request buffer) enqueue onto one FIFO channel: after dispatching
`r1, r2, r3` in that order the buffer extends the prior content by
`[r1, r2, r3]`, and the `/events` drain loop, receiving repeatedly from
that channel, dequeues (and hence serializes onto the SSE stream) exactly
that sequence in that order. -/
theorem sendRequest_step (s : Server) (cid : String) (i : Nat) (r : Request)
    (hl : alookup s.clients cid = some i)
    (hi : i < s.reqChans.length)
    (ho : (chanAt s.reqChans i).closed = false)
    (hr : (chanAt s.reqChans i).buf.length < (chanAt s.reqChans i).cap) :
    ∃ s', s.sendRequest cid r = .ok s' (alookup s.responses cid) ∧
      chanAt s'.reqChans i =
        ({ chanAt s.reqChans i with buf := (chanAt s.reqChans i).buf ++ [r] }) ∧
      s'.reqChans.length = s.reqChans.length ∧
      s'.clients = s.clients ∧ s'.responses = s.responses := by
  refine ⟨_, sendRequest_ok s cid i r hl ho hr, ?_, ?_, rfl, rfl⟩
  · exact chanAt_setAt_self _ _ _ hi
  · exact setAt_length _ _ _

theorem C7_theorem (s : Server) (cid : String) (i : Nat) (r1 r2 r3 : Request)
    (hl : alookup s.clients cid = some i)
    (ho : (chanAt s.reqChans i).closed = false)
    (hroom : (chanAt s.reqChans i).buf.length + 3 ≤ (chanAt s.reqChans i).cap) :
    ∃ s1 s2 s3,
      s.sendRequest cid r1 = .ok s1 (alookup s.responses cid) ∧
      s1.sendRequest cid r2 = .ok s2 (alookup s1.responses cid) ∧
      s2.sendRequest cid r3 = .ok s3 (alookup s2.responses cid) ∧
      (chanAt s3.reqChans i).buf = (chanAt s.reqChans i).buf ++ [r1, r2, r3] ∧
      drainList (chanAt s3.reqChans i).buf.length (chanAt s3.reqChans i) =
        (chanAt s.reqChans i).buf ++ [r1, r2, r3] := by
  have hi : i < s.reqChans.length := cap_pos_lt_length _ _ (by omega)
  obtain ⟨s1, e1, hch1, hlen1, hcl1, _⟩ :=
    sendRequest_step s cid i r1 hl hi ho (by omega)
  have hl1 : alookup s1.clients cid = some i := by rw [hcl1]; exact hl
  have hi1 : i < s1.reqChans.length := by rw [hlen1]; exact hi
  have ho1 : (chanAt s1.reqChans i).closed = false := by rw [hch1]; exact ho
  have hr1 : (chanAt s1.reqChans i).buf.length < (chanAt s1.reqChans i).cap := by
    rw [hch1]; simp; omega
  obtain ⟨s2, e2, hch2, hlen2, hcl2, _⟩ :=
    sendRequest_step s1 cid i r2 hl1 hi1 ho1 hr1
  have hl2 : alookup s2.clients cid = some i := by rw [hcl2]; exact hl1
  have hi2 : i < s2.reqChans.length := by rw [hlen2]; exact hi1
  have ho2 : (chanAt s2.reqChans i).closed = false := by rw [hch2, hch1]; exact ho
  have hr2 : (chanAt s2.reqChans i).buf.length < (chanAt s2.reqChans i).cap := by
    rw [hch2, hch1]; simp; omega
  obtain ⟨s3, e3, hch3, hlen3, hcl3, _⟩ :=
    sendRequest_step s2 cid i r3 hl2 hi2 ho2 hr2
  refine ⟨s1, s2, s3, e1, e2, e3, ?_, ?_⟩
  · rw [hch3, hch2, hch1]; simp
  · rw [hch3, hch2, hch1, drainList_eq_buf]; simp

/-- C7 witness: three concrete dispatches to the registered client "c1"
are buffered and drained in dispatch order. -/
theorem C7_witness :
    ∃ s1 s2 s3,
      regC1.sendRequest "c1" { id := "r1", method := "m", message := "1" } =
        .ok s1 (alookup regC1.responses "c1") ∧
      s1.sendRequest "c1" { id := "r2", method := "m", message := "2" } =
        .ok s2 (alookup s1.responses "c1") ∧
      s2.sendRequest "c1" { id := "r3", method := "m", message := "3" } =
        .ok s3 (alookup s2.responses "c1") ∧
      (chanAt s3.reqChans 0).buf = (chanAt regC1.reqChans 0).buf ++
        [{ id := "r1", method := "m", message := "1" },
         { id := "r2", method := "m", message := "2" },
         { id := "r3", method := "m", message := "3" }] ∧
      drainList (chanAt s3.reqChans 0).buf.length (chanAt s3.reqChans 0) =
        (chanAt regC1.reqChans 0).buf ++
        [{ id := "r1", method := "m", message := "1" },
         { id := "r2", method := "m", message := "2" },
         { id := "r3", method := "m", message := "3" }] :=
  C7_theorem regC1 "c1" 0 _ _ _ rfl rfl (by decide)

/-- C8: the code violates the claim (and the spec calls the timestamp-
derived identifiers out as a defect): two `/trigger` dispatches within
the same Unix second — overlapping in-flight requests — receive the very
same identifier `req_100`, though they are distinct requests. -/
theorem C8_collision :
    triggerRequest 100 "a" ≠ triggerRequest 100 "b" ∧
    (triggerRequest 100 "a").id = (triggerRequest 100 "b").id ∧
    genRequestID 100 = "req_100" := by
  exact ⟨by decide, rfl, rfl⟩

/-- After `removeClient`, both registry maps have no entry for the
client: the deletes really remove the bindings. -/
theorem removeClient_absent (s : Server) (cid : String) :
    alookup (s.removeClient cid).clients cid = none ∧
    alookup (s.removeClient cid).responses cid = none := by
  cases h1 : alookup s.clients cid <;> cases h2 : alookup s.responses cid <;>
    simp [Server.removeClient, h1, h2, alookup_aErase_self]

/-- C9: confirmed. `removeClient` on a clientID with no registry entries
is a no-op leaving the state unchanged, and running it twice equals
running it once — the second call finds no entry, so it neither fails nor
closes an already-closed channel. -/
theorem C9_theorem (s : Server) (cid : String) :
    (alookup s.clients cid = none → alookup s.responses cid = none →
      s.removeClient cid = s) ∧
    (s.removeClient cid).removeClient cid = s.removeClient cid := by
  constructor
  · intro h1 h2
    simp [Server.removeClient, h1, h2]
  · have h := removeClient_absent s cid
    generalize hS : s.removeClient cid = t at h ⊢
    obtain ⟨h1, h2⟩ := h
    simp [Server.removeClient, h1, h2]

/-- C9 witness: unregistering a never-registered client leaves the empty
server unchanged; unregistering "c1" twice equals unregistering once. -/
theorem C9_witness :
    Server.empty.removeClient "c1" = Server.empty ∧
    (regC1.removeClient "c1").removeClient "c1" = regC1.removeClient "c1" :=
  ⟨(C9_theorem Server.empty "c1").1 rfl rfl, (C9_theorem regC1 "c1").2⟩

/-- C10: confirmed. (i) Registration installs one fresh buffered response
channel of capacity 10 for the client; (ii) the `/response` handler
appends a submitted response to that shared queue whatever its `id` field
is; (iii) a waiting dispatch dequeues the queue's first response,
whatever its `id`; (iv) dispatching (`sendRequest`) never touches the
response queue or its registry binding, so a response left queued by an
earlier (e.g. timed-out) dispatch survives and is what the next dispatch
for that client dequeues. -/
theorem C10_theorem :
    (∀ (s : Server) (cid : String), alookup ((s.addClient cid).1).responses cid = some s.respChans.length ∧
      chanAt ((s.addClient cid).1).respChans s.respChans.length = Chan.new Response 10) ∧
    (∀ (s : Server) (cid : String) (i : Nat) (resp : Response), alookup s.responses cid = some i →
      (chanAt s.respChans i).closed = false →
      (chanAt s.respChans i).buf.length < (chanAt s.respChans i).cap →
      handleResponse s cid resp = .done
        ({ s with respChans := (setAt s.respChans i
            ({ chanAt s.respChans i with buf := (chanAt s.respChans i).buf ++ [resp] })) })
        200) ∧
    (∀ (s : Server) (i : Nat) (x : Response) (rest : List Response), (chanAt s.respChans i).buf = x :: rest →
      awaitResponse s i = .gotResponse x
        ({ s with respChans := (setAt s.respChans i
            ({ chanAt s.respChans i with buf := rest })) })) ∧
    (∀ (s : Server) (cid : String) (r : Request) (s' : Server) (oi : Option Nat), s.sendRequest cid r = .ok s' oi →
      s'.respChans = s.respChans ∧ s'.responses = s.responses) := by
  refine ⟨?_, ?_, ?_, ?_⟩
  · intro s cid
    simp only [Server.addClient]
    exact ⟨alookup_aInsert_self _ _ _, chanAt_append_length _ _⟩
  · intro s cid i resp hl ho hr
    exact handleResponse_sent s cid i resp hl ho hr
  · intro s i x rest hbuf
    exact awaitResponse_cons s i x rest hbuf
  · intro s cid r s' oi h
    cases h1 : alookup s.clients cid with
    | none =>
      simp only [Server.sendRequest, h1] at h
      exact absurd h (by simp)
    | some i =>
      cases h2 : (chanAt s.reqChans i).send r with
      | sent c =>
        simp only [Server.sendRequest, h1, h2] at h
        obtain ⟨hs, _⟩ := SendReqResult.ok.inj h
        rw [← hs]
        exact ⟨rfl, rfl⟩
      | blocked =>
        simp only [Server.sendRequest, h1, h2] at h
        exact absurd h (by simp)
      | panicked =>
        simp only [Server.sendRequest, h1, h2] at h
        exact absurd h (by simp)

/-- C10 witness: the shared queue at work on the concrete states: fresh
capacity-10 queue on registration; a response with a non-matching `id`
appended; the late `req_100` response dequeued by the next wait; a
dispatch leaving the response queue untouched. -/
theorem C10_witness :
    chanAt ((Server.empty.addClient "c1").1).respChans 0 = Chan.new Response 10 ∧
    handleResponse pendingC1 "c1" { id := "other", result := "r" } = .done
      ({ pendingC1 with respChans := (setAt pendingC1.respChans 0
          ({ chanAt pendingC1.respChans 0 with
              buf := (chanAt pendingC1.respChans 0).buf ++ [{ id := "other", result := "r" }] })) })
      200 ∧
    awaitResponse lateC1 0 = .gotResponse { id := "req_100", result := "late" }
      ({ lateC1 with respChans := (setAt lateC1.respChans 0
          ({ chanAt lateC1.respChans 0 with buf := [] })) }) ∧
    secondC1.respChans = lateC1.respChans ∧ secondC1.responses = lateC1.responses :=
  ⟨(C10_theorem.1 Server.empty "c1").2,
   C10_theorem.2.1 pendingC1 "c1" 0 { id := "other", result := "r" } rfl rfl (by decide),
   C10_theorem.2.2.1 lateC1 0 { id := "req_100", result := "late" } [] rfl,
   C10_theorem.2.2.2 lateC1 "c1" (triggerRequest 200 "again") secondC1 (some 0) rfl⟩

end SSEBidir
